import Mathlib

/-!
Shallow embedding of the Pomodoro timer core: the countdown state machine in
src/contexts/TimerContext.tsx and the persistence / reconciliation helpers in
src/lib/timerPersistence.ts. Seconds and phase indices are modelled as Nat
(the engine only ever stores non-negative integer second counts and indices),
wall-clock timestamps as Int (epoch milliseconds), and JavaScript
Math.floor division of a millisecond difference by 1000 as Int.fdiv.
-/

namespace Pomodoro

/-- Timer lifecycle status, from the TimerStatus union type. -/
inductive TimerStatus where
  | idle
  | running
  | paused
  | completed
deriving DecidableEq, Repr

/-- One phase of a preset. The engine reads only durationMinutes; display-only
fields (id, name, order, startTime) are omitted. -/
structure Phase where
  durationMinutes : Nat
deriving DecidableEq, Repr

/-- A preset as consumed by the engine: identity, ordered phase list, loop flag.
Display-only fields (name, color, order) are omitted. -/
structure Preset where
  id : String
  phases : List Phase
  loopPhases : Bool
deriving DecidableEq, Repr

/-- In-memory engine state, from interface TimerState. -/
structure TimerState where
  totalSeconds : Nat
  isRunning : Bool
  status : TimerStatus
  currentPhaseIndex : Nat
deriving DecidableEq, Repr

/-- The durable snapshot shape, from interface PersistedTimerState. -/
structure PersistedTimerState where
  totalSeconds : Nat
  currentPhaseIndex : Nat
  status : TimerStatus
  activePresetId : Option String
  savedAt : Int
  isRunning : Bool
deriving DecidableEq, Repr

/-- The default engine state used before any preset or restore arrives. -/
def initialTimerState : TimerState :=
  ⟨0, false, .idle, 0⟩

/-- calculateRestoredState from src/lib/timerPersistence.ts. The source reads
Date.now() itself; here the wall clock is the explicit first argument. -/
def calculateRestoredState (now : Int) (savedState : PersistedTimerState) :
    PersistedTimerState :=
  if ¬savedState.isRunning ∨ savedState.status ≠ .running then
    savedState
  else
    let elapsedSeconds : Int := Int.fdiv (now - savedState.savedAt) 1000
    let adjustedSeconds : Nat :=
      (max 0 ((savedState.totalSeconds : Int) - elapsedSeconds)).toNat
    if adjustedSeconds = 0 then
      { savedState with
          totalSeconds := 0
          isRunning := false
          status := .paused
          savedAt := now }
    else
      { savedState with totalSeconds := adjustedSeconds, savedAt := now }

/-- createPersistedState from src/lib/timerPersistence.ts, with Date.now()
made an explicit argument. -/
def createPersistedState (now : Int) (totalSeconds : Nat)
    (currentPhaseIndex : Nat) (status : TimerStatus)
    (activePresetId : Option String) (isRunning : Bool) : PersistedTimerState :=
  ⟨totalSeconds, currentPhaseIndex, status, activePresetId, now, isRunning⟩

/-- How TimerContext builds the snapshot it writes (steady-state save effect
and beforeunload handler both pass the current TimerState fields). -/
def persistedOfTimerState (now : Int) (s : TimerState)
    (activePresetId : Option String) : PersistedTimerState :=
  createPersistedState now s.totalSeconds s.currentPhaseIndex s.status
    activePresetId s.isRunning

/-- Projection used whenever TimerContext adopts a restored snapshot via
setTimerState. -/
def engineStateOfSnapshot (s : PersistedTimerState) : TimerState :=
  ⟨s.totalSeconds, s.isRunning, s.status, s.currentPhaseIndex⟩

/-- The setInterval tick callback in TimerContext.tsx (lines 300-340).
In the source, reading phases[0] of an empty phase list while looping would
fault on undefined; that branch returns an arbitrary running state here and
is unreachable for activated presets, whose phase lists are non-empty. -/
def tick (activePreset : Option Preset) (prev : TimerState) : TimerState :=
  if prev.totalSeconds ≤ 1 then
    match activePreset with
    | some preset =>
      let nextPhaseIndex := prev.currentPhaseIndex + 1
      match preset.phases[nextPhaseIndex]? with
      | some nextPhase =>
        ⟨nextPhase.durationMinutes * 60, true, .running, nextPhaseIndex⟩
      | none =>
        if preset.loopPhases then
          match preset.phases[0]? with
          | some firstPhase => ⟨firstPhase.durationMinutes * 60, true, .running, 0⟩
          | none => ⟨0, true, .running, 0⟩
        else
          { prev with totalSeconds := 0, isRunning := false, status := .completed }
    | none =>
      { prev with totalSeconds := 0, isRunning := false, status := .completed }
  else
    { prev with totalSeconds := prev.totalSeconds - 1 }

/-- start from TimerContext.tsx (lines 361-389). -/
def start (activePreset : Option Preset) (prev : TimerState) : TimerState :=
  match activePreset with
  | none => prev
  | some preset =>
    match preset.phases with
    | [] => prev
    | firstPhase :: _ =>
      if prev.status = .completed ∨ prev.status = .idle then
        ⟨firstPhase.durationMinutes * 60, true, .running, 0⟩
      else if prev.totalSeconds = 0 then
        match preset.phases[prev.currentPhaseIndex]? with
        | some currentPhaseData =>
          { prev with
              totalSeconds := currentPhaseData.durationMinutes * 60
              isRunning := true
              status := .running }
        | none => { prev with isRunning := true, status := .running }
      else
        { prev with isRunning := true, status := .running }

/-- pause from TimerContext.tsx (lines 391-393): unconditional. -/
def pause (prev : TimerState) : TimerState :=
  { prev with isRunning := false, status := .paused }

/-- reset from TimerContext.tsx (lines 395-404). -/
def reset (activePreset : Option Preset) (prev : TimerState) : TimerState :=
  match activePreset with
  | none => prev
  | some preset =>
    match preset.phases with
    | [] => prev
    | firstPhase :: _ =>
      ⟨firstPhase.durationMinutes * 60, false, .idle, 0⟩

/-- skipToNextPhase from TimerContext.tsx (lines 406-432). -/
def skipToNextPhase (activePreset : Option Preset) (prev : TimerState) :
    TimerState :=
  match activePreset with
  | none => prev
  | some preset =>
    if preset.phases.isEmpty then prev
    else
      let nextIndex := prev.currentPhaseIndex + 1
      match preset.phases[nextIndex]? with
      | some nextPhase =>
        ⟨nextPhase.durationMinutes * 60, false, .paused, nextIndex⟩
      | none =>
        if preset.loopPhases then
          match preset.phases[0]? with
          | some firstPhase =>
            ⟨firstPhase.durationMinutes * 60, false, .paused, 0⟩
          | none => prev
        else
          prev

/-- skipToPreviousPhase from TimerContext.tsx (lines 434-460). The source
indexes phases[currentPhaseIndex - 1] after checking it is non-negative; for
an index beyond the list the source would fault on undefined, modelled as a
no-op branch that is unreachable for in-range indices. -/
def skipToPreviousPhase (activePreset : Option Preset) (prev : TimerState) :
    TimerState :=
  match activePreset with
  | none => prev
  | some preset =>
    if preset.phases.isEmpty then prev
    else
      if 0 < prev.currentPhaseIndex then
        let prevIndex := prev.currentPhaseIndex - 1
        match preset.phases[prevIndex]? with
        | some prevPhase =>
          ⟨prevPhase.durationMinutes * 60, false, .paused, prevIndex⟩
        | none => prev
      else if preset.loopPhases then
        match preset.phases.getLast? with
        | some lastPhase =>
          ⟨lastPhase.durationMinutes * 60, false, .paused,
            preset.phases.length - 1⟩
        | none => prev
      else
        prev

/-- goToPhase from TimerContext.tsx (lines 462-472). The caller-supplied index
is an Int, bounds-checked exactly as in the source. -/
def goToPhase (activePreset : Option Preset) (index : Int) (prev : TimerState) :
    TimerState :=
  match activePreset with
  | none => prev
  | some preset =>
    if index < 0 ∨ (preset.phases.length : Int) ≤ index then prev
    else
      match preset.phases[index.toNat]? with
      | some targetPhase =>
        ⟨targetPhase.durationMinutes * 60, false, .paused, index.toNat⟩
      | none => prev

/-- The state the preset-change effect installs when it re-initializes
(TimerContext.tsx lines 228-243). -/
def initStateForPreset (activePreset : Option Preset) : TimerState :=
  match activePreset with
  | some preset =>
    match preset.phases with
    | firstPhase :: _ => ⟨firstPhase.durationMinutes * 60, false, .idle, 0⟩
    | [] => ⟨0, false, .idle, 0⟩
  | none => ⟨0, false, .idle, 0⟩

/-- The preset-change effect body (TimerContext.tsx lines 219-244): returns the
next engine state and the next value of the hasRestoredState guard. -/
def presetChangeEffect (hasRestoredState : Bool)
    (restoredPresetId activePresetId : Option String)
    (activePreset : Option Preset) (prev : TimerState) : TimerState × Bool :=
  if hasRestoredState ∧ restoredPresetId = activePresetId then
    (prev, false)
  else
    (initStateForPreset activePreset, hasRestoredState)

/-- Orchestrator-visible state around the engine: the engine state plus the
restore guard and the preset id the restore belonged to. -/
structure OrchestratorState where
  timerState : TimerState
  hasRestoredState : Bool
  restoredPresetId : Option String
deriving DecidableEq, Repr

/-- Result of the boot-time Firebase load: the orchestrator state afterwards
and the snapshot written through to localStorage, if any. -/
structure FirebaseLoadResult where
  orchestrator : OrchestratorState
  localWrite : Option PersistedTimerState
deriving DecidableEq, Repr

/-- loadFirebaseState from TimerContext.tsx (lines 189-216): adopt the remote
snapshot, reconciled, when it exists and is strictly newer than the local one
(or no local one exists), writing the reconciled copy through to localStorage;
otherwise keep the current state. -/
def loadFirebaseState (user syncTimerState : Bool)
    (firebaseState localState : Option PersistedTimerState) (now : Int)
    (cur : OrchestratorState) : FirebaseLoadResult :=
  if ¬user ∨ ¬syncTimerState then
    ⟨cur, none⟩
  else
    match firebaseState with
    | none => ⟨cur, none⟩
    | some fb =>
      if (match localState with
          | none => true
          | some l => l.savedAt < fb.savedAt) then
        let restoredState := calculateRestoredState now fb
        ⟨⟨engineStateOfSnapshot restoredState, true, restoredState.activePresetId⟩,
          some restoredState⟩
      else
        ⟨cur, none⟩

/-- The TimerState invariant stated in the spec data model. -/
def TimerInvariant (s : TimerState) : Prop :=
  (s.isRunning = true → s.status = .running) ∧
  (s.status = .completed → s.totalSeconds = 0 ∧ s.isRunning = false)

instance (s : TimerState) : Decidable (TimerInvariant s) := by
  unfold TimerInvariant; infer_instance

/-- Engine states reachable from the initial state by the control surface,
ticks, preset-change re-initialization, and adoption of a reconciled snapshot
that was persisted from a reachable state. -/
inductive Reachable : TimerState → Prop where
  | init : Reachable initialTimerState
  | presetInit (p : Option Preset) : Reachable (initStateForPreset p)
  | tickStep (p : Option Preset) {s : TimerState} :
      Reachable s → Reachable (tick p s)
  | startStep (p : Option Preset) {s : TimerState} :
      Reachable s → Reachable (start p s)
  | pauseStep {s : TimerState} : Reachable s → Reachable (pause s)
  | resetStep (p : Option Preset) {s : TimerState} :
      Reachable s → Reachable (reset p s)
  | skipNextStep (p : Option Preset) {s : TimerState} :
      Reachable s → Reachable (skipToNextPhase p s)
  | skipPrevStep (p : Option Preset) {s : TimerState} :
      Reachable s → Reachable (skipToPreviousPhase p s)
  | goToPhaseStep (p : Option Preset) (i : Int) {s : TimerState} :
      Reachable s → Reachable (goToPhase p i s)
  | restoreStep (savedAt now : Int) (pid : Option String) {s : TimerState} :
      Reachable s →
      Reachable (engineStateOfSnapshot
        (calculateRestoredState now (persistedOfTimerState savedAt s pid)))

/-! Helper lemmas shared by the invariant development. -/

lemma engineStateOfSnapshot_persisted (t : Int) (s : TimerState)
    (pid : Option String) : engineStateOfSnapshot (persistedOfTimerState t s pid) = s :=
  rfl

lemma timerInvariant_initial : TimerInvariant initialTimerState := by
  decide

lemma timerInvariant_initState (p : Option Preset) :
    TimerInvariant (initStateForPreset p) := by
  rcases p with _ | q
  · decide
  · rcases h : q.phases with _ | ⟨ph, t⟩ <;> simp [initStateForPreset, h, TimerInvariant]

lemma timerInvariant_tick (p : Option Preset) {s : TimerState}
    (hs : TimerInvariant s) : TimerInvariant (tick p s) := by
  obtain ⟨h1, h2⟩ := hs
  by_cases hts : s.totalSeconds ≤ 1
  · rcases p with _ | q
    · simp [tick, hts, TimerInvariant]
    · cases hget : q.phases[s.currentPhaseIndex + 1]? with
      | some ph => simp [tick, hts, hget, TimerInvariant]
      | none =>
        by_cases hloop : q.loopPhases
        · cases hget0 : q.phases[0]? with
          | some ph0 => simp [tick, hts, hget, hloop, hget0, TimerInvariant]
          | none => simp [tick, hts, hget, hloop, hget0, TimerInvariant]
        · simp [tick, hts, hget, hloop, TimerInvariant]
  · simp only [tick, if_neg hts, TimerInvariant]
    refine ⟨fun hr => h1 hr, fun hc => absurd (h2 hc).1 (by omega)⟩

lemma timerInvariant_start (p : Option Preset) {s : TimerState}
    (hs : TimerInvariant s) : TimerInvariant (start p s) := by
  rcases p with _ | q
  · exact hs
  · rcases hph : q.phases with _ | ⟨f, t⟩
    · simpa [start, hph] using hs
    · by_cases hst : s.status = TimerStatus.completed ∨ s.status = TimerStatus.idle
      · simp [start, hph, hst, TimerInvariant]
      · by_cases hz : s.totalSeconds = 0
        · cases hget : q.phases[s.currentPhaseIndex]? with
          | some cur =>
            rw [hph] at hget
            simp [start, hph, hst, hz, hget, TimerInvariant]
          | none =>
            rw [hph] at hget
            simp [start, hph, hst, hz, hget, TimerInvariant]
        · simp [start, hph, hst, hz, TimerInvariant]

lemma timerInvariant_pause {s : TimerState} : TimerInvariant (pause s) := by
  simp [pause, TimerInvariant]

lemma timerInvariant_reset (p : Option Preset) {s : TimerState}
    (hs : TimerInvariant s) : TimerInvariant (reset p s) := by
  rcases p with _ | q
  · exact hs
  · rcases hph : q.phases with _ | ⟨f, t⟩
    · simpa [reset, hph] using hs
    · simp [reset, hph, TimerInvariant]

lemma timerInvariant_skipNext (p : Option Preset) {s : TimerState}
    (hs : TimerInvariant s) : TimerInvariant (skipToNextPhase p s) := by
  rcases p with _ | q
  · exact hs
  · by_cases hemp : q.phases.isEmpty
    · simpa [skipToNextPhase, hemp] using hs
    · cases hget : q.phases[s.currentPhaseIndex + 1]? with
      | some ph => simp [skipToNextPhase, hemp, hget, TimerInvariant]
      | none =>
        by_cases hloop : q.loopPhases
        · cases hget0 : q.phases[0]? with
          | some ph0 => simp [skipToNextPhase, hemp, hget, hloop, hget0, TimerInvariant]
          | none => simpa [skipToNextPhase, hemp, hget, hloop, hget0] using hs
        · simpa [skipToNextPhase, hemp, hget, hloop] using hs

lemma timerInvariant_skipPrev (p : Option Preset) {s : TimerState}
    (hs : TimerInvariant s) : TimerInvariant (skipToPreviousPhase p s) := by
  rcases p with _ | q
  · exact hs
  · by_cases hemp : q.phases.isEmpty
    · simpa [skipToPreviousPhase, hemp] using hs
    · by_cases hpos : 0 < s.currentPhaseIndex
      · cases hget : q.phases[s.currentPhaseIndex - 1]? with
        | some ph => simp [skipToPreviousPhase, hemp, hpos, hget, TimerInvariant]
        | none => simpa [skipToPreviousPhase, hemp, hpos, hget] using hs
      · by_cases hloop : q.loopPhases
        · cases hlast : q.phases.getLast? with
          | some ph => simp [skipToPreviousPhase, hemp, hpos, hloop, hlast, TimerInvariant]
          | none => simpa [skipToPreviousPhase, hemp, hpos, hloop, hlast] using hs
        · simpa [skipToPreviousPhase, hemp, hpos, hloop] using hs

lemma timerInvariant_goToPhase (p : Option Preset) (i : Int) {s : TimerState}
    (hs : TimerInvariant s) : TimerInvariant (goToPhase p i s) := by
  rcases p with _ | q
  · exact hs
  · by_cases hb : i < 0 ∨ (q.phases.length : Int) ≤ i
    · simpa [goToPhase, hb] using hs
    · cases hget : q.phases[i.toNat]? with
      | some ph => simp [goToPhase, hb, hget, TimerInvariant]
      | none => simpa [goToPhase, hb, hget] using hs

lemma timerInvariant_restore (savedAt now : Int) (pid : Option String)
    {s : TimerState} (hs : TimerInvariant s) :
    TimerInvariant (engineStateOfSnapshot
      (calculateRestoredState now (persistedOfTimerState savedAt s pid))) := by
  by_cases hg : ¬((persistedOfTimerState savedAt s pid).isRunning : Prop) ∨
      (persistedOfTimerState savedAt s pid).status ≠ TimerStatus.running
  · rw [calculateRestoredState, if_pos hg, engineStateOfSnapshot_persisted]
    exact hs
  · rw [calculateRestoredState, if_neg hg]
    push_neg at hg
    by_cases hz : (max 0 (((persistedOfTimerState savedAt s pid).totalSeconds : Int) -
        Int.fdiv (now - (persistedOfTimerState savedAt s pid).savedAt) 1000)).toNat = 0
    · simp only [hz, if_pos rfl]
      simp [engineStateOfSnapshot, TimerInvariant]
    · simp only [if_neg hz]
      refine ⟨fun _ => hg.2, fun hc => absurd hg.2 (by simp [engineStateOfSnapshot] at hc; simp [hc])⟩

/-! Claim theorems. -/

/-- Claim C1: on a running state under an active preset with a non-empty
phase list, the tick step decrements totalSeconds by exactly 1 when more than
one second remains, leaving isRunning, status and currentPhaseIndex unchanged
and staying positive; at or below one second it advances to the next phase
with that phase's full duration in seconds while staying running, or wraps to
phase 0 when no next phase exists and loopPhases is set, or else stops with
zero seconds, isRunning false and status completed. -/
theorem tick_spec (p : Preset) (prev : TimerState)
    (hrun : prev.isRunning = true) (hst : prev.status = TimerStatus.running)
    (hne : p.phases ≠ []) :
    (1 < prev.totalSeconds →
      tick (some p) prev = { prev with totalSeconds := prev.totalSeconds - 1 } ∧
      0 < (tick (some p) prev).totalSeconds) ∧
    (prev.totalSeconds ≤ 1 →
      (prev.currentPhaseIndex + 1 < p.phases.length →
        ∃ ph, p.phases[prev.currentPhaseIndex + 1]? = some ph ∧
          tick (some p) prev =
            ⟨ph.durationMinutes * 60, true, .running, prev.currentPhaseIndex + 1⟩) ∧
      (p.phases.length ≤ prev.currentPhaseIndex + 1 → p.loopPhases = true →
        ∃ ph, p.phases[0]? = some ph ∧
          tick (some p) prev = ⟨ph.durationMinutes * 60, true, .running, 0⟩) ∧
      (p.phases.length ≤ prev.currentPhaseIndex + 1 → p.loopPhases = false →
        tick (some p) prev =
          { prev with
              totalSeconds := 0
              isRunning := false
              status := .completed })) := by
  constructor
  · intro h
    constructor
    · simp [tick, Nat.not_le.mpr h]
    · simp [tick, Nat.not_le.mpr h]
      omega
  · intro hle
    refine ⟨?_, ?_, ?_⟩
    · intro hlt
      have hget : p.phases[prev.currentPhaseIndex + 1]? =
          some (p.phases[prev.currentPhaseIndex + 1]) := List.getElem?_eq_getElem hlt
      exact ⟨_, hget, by simp [tick, hle, hget]⟩
    · intro hlen hloop
      have hget : p.phases[prev.currentPhaseIndex + 1]? = none :=
        List.getElem?_eq_none hlen
      obtain ⟨f, t, hph⟩ := List.exists_cons_of_ne_nil hne
      refine ⟨f, by simp [hph], ?_⟩
      rw [hph] at hget
      simp only [List.getElem?_cons_succ] at hget
      simp [tick, hle, hget, hloop, hph]
    · intro hlen hloop
      have hget : p.phases[prev.currentPhaseIndex + 1]? = none :=
        List.getElem?_eq_none hlen
      simp [tick, hle, hget, hloop]

/-- Witness for tick_spec at the two-phase one-minute preset of the spec. -/
theorem tick_spec_witness :
    tick (some ⟨"w", [⟨1⟩, ⟨1⟩], false⟩) ⟨60, true, .running, 0⟩ =
      ⟨59, true, TimerStatus.running, 0⟩ :=
  ((tick_spec ⟨"w", [⟨1⟩, ⟨1⟩], false⟩ ⟨60, true, .running, 0⟩ rfl rfl
      (by decide)).1 (by decide)).1

/-- Claim C2: reconciliation of a running snapshot computes the floored
elapsed seconds since savedAt; when the clamped adjusted remainder is
positive it keeps the snapshot with the adjusted remainder and savedAt set to
now, and when the remainder clamps to zero it stops the snapshot with status
paused and savedAt set to now, all other fields unchanged. -/
theorem calculateRestoredState_running_spec (now : Int)
    (s : PersistedTimerState) (hrun : s.isRunning = true)
    (hst : s.status = TimerStatus.running) :
    (0 < (max 0 ((s.totalSeconds : Int) - Int.fdiv (now - s.savedAt) 1000)).toNat →
      calculateRestoredState now s =
        { s with
            totalSeconds :=
              (max 0 ((s.totalSeconds : Int) - Int.fdiv (now - s.savedAt) 1000)).toNat
            savedAt := now }) ∧
    ((max 0 ((s.totalSeconds : Int) - Int.fdiv (now - s.savedAt) 1000)).toNat = 0 →
      calculateRestoredState now s =
        { s with
            totalSeconds := 0
            isRunning := false
            status := .paused
            savedAt := now }) := by
  constructor
  · intro h
    simp [calculateRestoredState, hrun, hst]
    omega
  · intro h
    simp [calculateRestoredState, hrun, hst, h]

/-- Witness for calculateRestoredState_running_spec at the within-budget
vector of the spec: 100 seconds saved, reconciled 40000 ms later. -/
theorem calculateRestoredState_running_spec_witness :
    calculateRestoredState 40000 ⟨100, 0, .running, none, 0, true⟩ =
      ⟨60, 0, TimerStatus.running, none, 40000, true⟩ :=
  (calculateRestoredState_running_spec 40000 ⟨100, 0, .running, none, 0, true⟩
      rfl rfl).1 (by decide)

/-- Claim C3: reconciliation is the identity on every snapshot that is not
running or whose status is not running, for every wall clock value, savedAt
included. -/
theorem calculateRestoredState_id_of_not_running (now : Int)
    (s : PersistedTimerState)
    (h : s.isRunning = false ∨ s.status ≠ TimerStatus.running) :
    calculateRestoredState now s = s := by
  rw [calculateRestoredState, if_pos]
  rcases h with h | h
  · exact Or.inl (by simp [h])
  · exact Or.inr h

/-- Witness for calculateRestoredState_id_of_not_running on a paused
snapshot far in the past. -/
theorem calculateRestoredState_id_of_not_running_witness :
    calculateRestoredState 999999 ⟨30, 2, .paused, some "p", 123, false⟩ =
      ⟨30, 2, TimerStatus.paused, some "p", 123, false⟩ :=
  calculateRestoredState_id_of_not_running 999999 _ (Or.inl rfl)

/-- Claim C4: every engine state reachable from the initial state through the
control surface, ticks, preset re-initialization and restore adoption
satisfies the invariant: isRunning implies status running, and status
completed implies zero seconds remaining and not running. -/
theorem reachable_timerInvariant (s : TimerState) (h : Reachable s) :
    TimerInvariant s := by
  induction h with
  | init => exact timerInvariant_initial
  | presetInit p => exact timerInvariant_initState p
  | tickStep p _ ih => exact timerInvariant_tick p ih
  | startStep p _ ih => exact timerInvariant_start p ih
  | pauseStep _ _ => exact timerInvariant_pause
  | resetStep p _ ih => exact timerInvariant_reset p ih
  | skipNextStep p _ ih => exact timerInvariant_skipNext p ih
  | skipPrevStep p _ ih => exact timerInvariant_skipPrev p ih
  | goToPhaseStep p i _ ih => exact timerInvariant_goToPhase p i ih
  | restoreStep savedAt now pid _ ih => exact timerInvariant_restore savedAt now pid ih

/-- Witness for reachable_timerInvariant after one tick from the initial
state. -/
theorem reachable_timerInvariant_witness :
    TimerInvariant (tick none initialTimerState) :=
  reachable_timerInvariant _ (Reachable.tickStep none Reachable.init)

/-- Claim C5: at boot with sync enabled and a user present, the reconciled
remote snapshot is adopted and written through to localStorage exactly when
the remote snapshot exists and the local one is absent or strictly older;
otherwise, equal savedAt included, the current state restored from
localStorage is kept and nothing is written through. -/
theorem loadFirebaseState_spec (fbOpt localOpt : Option PersistedTimerState)
    (now : Int) (cur : OrchestratorState) :
    (∀ fb, fbOpt = some fb →
      (localOpt = none ∨ ∃ l, localOpt = some l ∧ l.savedAt < fb.savedAt) →
      loadFirebaseState true true fbOpt localOpt now cur =
        ⟨⟨engineStateOfSnapshot (calculateRestoredState now fb), true,
            (calculateRestoredState now fb).activePresetId⟩,
          some (calculateRestoredState now fb)⟩) ∧
    ((fbOpt = none ∨ ∃ fb l, fbOpt = some fb ∧ localOpt = some l ∧
        fb.savedAt ≤ l.savedAt) →
      loadFirebaseState true true fbOpt localOpt now cur = ⟨cur, none⟩) := by
  constructor
  · rintro fb rfl h
    rcases h with rfl | ⟨l, rfl, hlt⟩
    · simp [loadFirebaseState]
    · simp [loadFirebaseState, hlt]
  · rintro (rfl | ⟨fb, l, rfl, rfl, hle⟩)
    · simp [loadFirebaseState]
    · simp [loadFirebaseState, Int.not_lt.mpr hle]

/-- Witness for loadFirebaseState_spec: a remote snapshot strictly newer than
the local one is adopted reconciled and written through. -/
theorem loadFirebaseState_spec_witness :
    loadFirebaseState true true (some ⟨100, 0, .running, some "p", 2000, true⟩)
        (some ⟨70, 1, .paused, some "p", 1000, false⟩) 2000
        ⟨⟨70, false, .paused, 1⟩, false, none⟩ =
      ⟨⟨⟨100, true, TimerStatus.running, 0⟩, true, some "p"⟩,
        some ⟨100, 0, TimerStatus.running, some "p", 2000, true⟩⟩ :=
  (loadFirebaseState_spec (some ⟨100, 0, .running, some "p", 2000, true⟩)
      (some ⟨70, 1, .paused, some "p", 1000, false⟩) 2000
      ⟨⟨70, false, .paused, 1⟩, false, none⟩).1
    ⟨100, 0, .running, some "p", 2000, true⟩ rfl
    (Or.inr ⟨⟨70, 1, .paused, some "p", 1000, false⟩, rfl, by decide⟩)

/-- Claim C6 counterexample: pause applied to a not-running idle state is not
a no-op; it rewrites status from idle to paused. -/
theorem pause_not_noop_on_idle :
    pause ⟨60, false, .idle, 0⟩ ≠ ⟨60, false, .idle, 0⟩ := by
  decide

/-- Claim C6 (amended): pause unconditionally sets isRunning to false and
status to paused — so it is a no-op exactly on states that are already paused
and not running, not on idle or completed ones — and it never alters
totalSeconds or currentPhaseIndex. -/
theorem pause_spec (prev : TimerState) :
    pause prev = { prev with isRunning := false, status := .paused } ∧
    (pause prev).totalSeconds = prev.totalSeconds ∧
    (pause prev).currentPhaseIndex = prev.currentPhaseIndex ∧
    (prev.isRunning = false ∧ prev.status = TimerStatus.paused →
      pause prev = prev) := by
  refine ⟨rfl, rfl, rfl, ?_⟩
  rintro ⟨h1, h2⟩
  cases prev
  simp_all [pause]

/-- Witness for pause_spec on an already-paused state. -/
theorem pause_spec_witness :
    pause ⟨5, false, .paused, 1⟩ = ⟨5, false, TimerStatus.paused, 1⟩ :=
  (pause_spec ⟨5, false, .paused, 1⟩).2.2.2 ⟨rfl, rfl⟩

/-- Claim C7: invalid control calls are silent no-ops for every state: start,
reset and both skips with no active preset or an empty phase list, and
goToPhase with a negative or out-of-range index. -/
theorem invalid_controls_noop (prev : TimerState) (p : Preset) (i : Int) :
    start none prev = prev ∧ reset none prev = prev ∧
    skipToNextPhase none prev = prev ∧ skipToPreviousPhase none prev = prev ∧
    goToPhase none i prev = prev ∧
    (p.phases = [] →
      start (some p) prev = prev ∧ reset (some p) prev = prev ∧
      skipToNextPhase (some p) prev = prev ∧
      skipToPreviousPhase (some p) prev = prev) ∧
    ((i < 0 ∨ (p.phases.length : Int) ≤ i) → goToPhase (some p) i prev = prev) := by
  refine ⟨rfl, rfl, rfl, rfl, rfl, ?_, ?_⟩
  · intro h
    refine ⟨?_, ?_, ?_, ?_⟩ <;>
      simp [start, reset, skipToNextPhase, skipToPreviousPhase, h]
  · intro h
    simp [goToPhase, h]

/-- Witness for invalid_controls_noop with an empty preset and index -1. -/
theorem invalid_controls_noop_witness :
    start (some ⟨"e", [], false⟩) ⟨7, false, .paused, 0⟩ =
      ⟨7, false, TimerStatus.paused, 0⟩ ∧
    goToPhase (some ⟨"e", [], false⟩) (-1) ⟨7, false, .paused, 0⟩ =
      ⟨7, false, TimerStatus.paused, 0⟩ :=
  ⟨((invalid_controls_noop ⟨7, false, .paused, 0⟩ ⟨"e", [], false⟩
        (-1)).2.2.2.2.2.1 rfl).1,
    (invalid_controls_noop ⟨7, false, .paused, 0⟩ ⟨"e", [], false⟩
        (-1)).2.2.2.2.2.2 (Or.inl (by decide))⟩

/-- Claim C8: the preset-change effect keeps the state and clears the guard
when the restore guard is set for exactly the active preset id; in every
other case it re-initializes to phase 0 — idle, not running, the first phase
duration in seconds, or zero seconds without phases — leaving the guard as it
was, and once the guard is cleared every subsequent change re-initializes. -/
theorem presetChangeEffect_spec (guard : Bool) (rid aid : Option String)
    (p : Option Preset) (s : TimerState) :
    (guard = true → rid = aid →
      presetChangeEffect guard rid aid p s = (s, false)) ∧
    (guard = false ∨ rid ≠ aid →
      presetChangeEffect guard rid aid p s = (initStateForPreset p, guard)) ∧
    (∀ rid2 aid2 : Option String, ∀ p2 : Option Preset, ∀ s2 : TimerState,
      presetChangeEffect false rid2 aid2 p2 s2 = (initStateForPreset p2, false)) ∧
    (∀ q : Preset, ∀ ph : Phase, ∀ rest : List Phase, q.phases = ph :: rest →
      initStateForPreset (some q) =
        ⟨ph.durationMinutes * 60, false, .idle, 0⟩) ∧
    (∀ q : Preset, q.phases = [] →
      initStateForPreset (some q) = initialTimerState) ∧
    initStateForPreset none = initialTimerState := by
  refine ⟨?_, ?_, ?_, ?_, ?_, rfl⟩
  · rintro rfl rfl
    simp [presetChangeEffect]
  · rintro (rfl | hne)
    · simp [presetChangeEffect]
    · simp [presetChangeEffect, hne]
  · intro rid2 aid2 p2 s2
    simp [presetChangeEffect]
  · intro q ph rest hq
    simp [initStateForPreset, hq]
  · intro q hq
    simp [initStateForPreset, hq, initialTimerState]

/-- Witness for presetChangeEffect_spec: a matching restore guard skips
re-initialization once and comes back cleared. -/
theorem presetChangeEffect_spec_witness :
    presetChangeEffect true (some "p") (some "p") none ⟨42, false, .paused, 1⟩ =
      (⟨42, false, TimerStatus.paused, 1⟩, false) :=
  (presetChangeEffect_spec true (some "p") (some "p") none
      ⟨42, false, .paused, 1⟩).1 rfl rfl

/-- Claim C9 counterexample: the boot write-through of an adopted non-running
remote snapshot keeps the remote savedAt of 1000 although the write happens
at wall-clock 5000 — the local write is backdated. -/
theorem boot_write_through_backdated :
    (loadFirebaseState true true
        (some ⟨50, 0, .paused, some "p", 1000, false⟩) none 5000
        ⟨initialTimerState, false, none⟩).localWrite =
      some ⟨50, 0, TimerStatus.paused, some "p", 1000, false⟩ ∧
    (1000 : Int) ≠ 5000 := by
  exact ⟨rfl, by decide⟩

/-- Claim C9 (amended): every snapshot built by createPersistedState — the
steady-state save effect and the unload handler both build theirs with it —
carries savedAt equal to the wall-clock time of the write, and the boot
write-through of an adopted remote snapshot does so whenever that snapshot
was running; when it was not, reconciliation returns it unchanged and the
write-through keeps its original, possibly earlier, savedAt. -/
theorem savedAt_is_write_time (now : Int) (totalSeconds currentPhaseIndex : Nat)
    (status : TimerStatus) (pid : Option String) (isRunning : Bool)
    (s : TimerState) (fb : PersistedTimerState) :
    (createPersistedState now totalSeconds currentPhaseIndex status pid
        isRunning).savedAt = now ∧
    (persistedOfTimerState now s pid).savedAt = now ∧
    (fb.isRunning = true → fb.status = TimerStatus.running →
      (calculateRestoredState now fb).savedAt = now) ∧
    (fb.isRunning = false ∨ fb.status ≠ TimerStatus.running →
      (calculateRestoredState now fb).savedAt = fb.savedAt) := by
  refine ⟨rfl, rfl, ?_, ?_⟩
  · intro hrun hst
    by_cases hz : (max 0 ((fb.totalSeconds : Int) -
        Int.fdiv (now - fb.savedAt) 1000)).toNat = 0
    · simp [calculateRestoredState, hrun, hst, hz]
    · simp [calculateRestoredState, hrun, hst, hz]
  · intro h
    rw [calculateRestoredState, if_pos]
    rcases h with h | h
    · exact Or.inl (by simp [h])
    · exact Or.inr h

/-- Witness for savedAt_is_write_time: reconciling a running snapshot at 9000
stamps savedAt 9000. -/
theorem savedAt_is_write_time_witness :
    (calculateRestoredState 9000 ⟨100, 0, .running, none, 2000, true⟩).savedAt =
      9000 :=
  (savedAt_is_write_time 9000 0 0 .idle none false initialTimerState
      ⟨100, 0, .running, none, 2000, true⟩).2.2.1 rfl rfl

/-- Claim C10: reconciling a running snapshot whose savedAt lies strictly in
the future of now yields a strictly larger remaining total — the floored
negative elapsed time is not clamped, so at least one second is gained —
while isRunning and status stay running and savedAt becomes now. -/
theorem calculateRestoredState_clock_skew (now : Int) (s : PersistedTimerState)
    (hrun : s.isRunning = true) (hst : s.status = TimerStatus.running)
    (hfut : now < s.savedAt) :
    s.totalSeconds < (calculateRestoredState now s).totalSeconds ∧
    (calculateRestoredState now s).isRunning = true ∧
    (calculateRestoredState now s).status = TimerStatus.running ∧
    (calculateRestoredState now s).savedAt = now := by
  have helapsed : Int.fdiv (now - s.savedAt) 1000 < 0 :=
    Int.fdiv_neg' (by omega) (by norm_num)
  have hz : ¬((max 0 ((s.totalSeconds : Int) -
      Int.fdiv (now - s.savedAt) 1000)).toNat = 0) := by omega
  have hgt : s.totalSeconds < (max 0 ((s.totalSeconds : Int) -
      Int.fdiv (now - s.savedAt) 1000)).toNat := by omega
  refine ⟨?_, ?_, ?_, ?_⟩ <;>
    simp [calculateRestoredState, hrun, hst, hz, hgt]

/-- Witness for calculateRestoredState_clock_skew: savedAt 5000, reconciled
at 4000, gains a second. -/
theorem calculateRestoredState_clock_skew_witness :
    10 < (calculateRestoredState 4000 ⟨10, 0, .running, none, 5000, true⟩).totalSeconds ∧
    (calculateRestoredState 4000 ⟨10, 0, .running, none, 5000, true⟩).savedAt = 4000 := by
  have h := calculateRestoredState_clock_skew 4000
    ⟨10, 0, .running, none, 5000, true⟩ rfl rfl (by decide)
  exact ⟨h.1, h.2.2.2⟩

end Pomodoro
